import Mathlib

/-!
Verification of the LoRa RFM9x simulator server (`simulated_server.py`).

The server's numeric model is embedded over `ℚ`.  The Python code draws from a
global pseudo-random stream and calls the transcendental functions
`math.exp` / `math.log10`; in the embedding every random draw is an explicit
input (a `List ℚ` consumed in order, or a named jitter argument) and the
transcendental functions are explicit function parameters (`expf`, `log10`),
so every definition stays computable and theorems can be instantiated at
concrete inputs.  Dictionaries keyed by node id are embedded as association
lists with first-match lookup; `defaultdict(int)` / `.get(key, 0)` tables are
embedded as total functions with default value `0`.
-/

namespace LoRaSim

/-- Configuration constant `TX_POWER_DBM = 23` from the source. -/
def TX_POWER_DBM : ℚ := 23

/-- Configuration constant `NOISE_FIGURE = 6` from the source. -/
def NOISE_FIGURE : ℚ := 6

/-- Configuration constant `BANDWIDTH = 125000` Hz from the source. -/
def BANDWIDTH : ℚ := 125000

/-- Configuration constant `FREQUENCY_MHZ = 915` from the source. -/
def FREQUENCY_MHZ : ℚ := 915

/-- The `SF_SENSITIVITY` table.  The source accesses it as `SF_SENSITIVITY[sf]`
(no default; a key outside 7..12 raises in Python, which is outside the
modelled domain, so the embedding returns `0` there). -/
def SF_SENSITIVITY (sf : ℕ) : ℚ :=
  match sf with
  | 7 => -123 | 8 => -126 | 9 => -129 | 10 => -132 | 11 => -134.5 | 12 => -137
  | _ => 0

/-- The `SF_SNR_RANGES` table `(min SNR, max typical SNR)`; the source always
reads it via `.get(sf, (-20, 5.0))`, so the out-of-table default is `(-20, 5)`. -/
def SF_SNR_RANGES (sf : ℕ) : ℚ × ℚ :=
  match sf with
  | 7 => (-7.5, 10) | 8 => (-10, 9) | 9 => (-12.5, 8) | 10 => (-15, 7)
  | 11 => (-17.5, 6) | 12 => (-20, 5)
  | _ => (-20, 5)

/-- The `SF_MAX_RANGE_KM` table; read via `.get(sf, 10.0)` in the source. -/
def SF_MAX_RANGE_KM (sf : ℕ) : ℚ :=
  match sf with
  | 7 => 5 | 8 => 8 | 9 => 12 | 10 => 16 | 11 => 20 | 12 => 25
  | _ => 10

/-- The `OBSTACLE_LOSS_DB` table; read via `.get(obstacle, 0.0)`, and
`"open"` maps to `0.0`, which the default also covers. -/
def OBSTACLE_LOSS_DB (o : String) : ℚ :=
  match o with
  | "glass_6mm" => 0.8 | "glass_13mm" => 2 | "wood_76mm" => 3.5
  | "brick_89mm" => 4.5 | "brick_102mm" => 6 | "brick_178mm" => 8.5
  | "brick_267mm" => 14 | "stone_wall_203mm" => 15 | "brick_concrete_192mm" => 18
  | "stone_wall_406mm" => 24 | "concrete_203mm" => 28 | "reinforced_concrete_89mm" => 32
  | "stone_wall_610mm" => 36 | "concrete_305mm" => 42
  | _ => 0

/-- The `weather_noise_addition` table inside `compute_snr`;
read via `.get(weather, 0)`. -/
def weather_noise_addition (w : String) : ℚ :=
  if w = "clear" then 0 else if w = "fog" then 0.5
  else if w = "light-rain" then 1 else if w = "moderate-rain" then 2
  else if w = "heavy-rain" then 3.5 else 0

/-- The `weather_base` table inside `calculate_transmission_delay`;
read via `.get(weather, 1.0)`. -/
def weather_delay_base (w : String) : ℚ :=
  if w = "clear" then 1 else if w = "fog" then 1.05
  else if w = "light-rain" then 1.1 else if w = "moderate-rain" then 1.2
  else if w = "heavy-rain" then 1.35 else 1

/-- The `sf_interference_factor` table inside `should_drop`;
read via `.get(sf, 1.0)`. -/
def sf_interference_factor (sf : ℕ) : ℚ :=
  match sf with
  | 7 => 0.7 | 8 => 0.8 | 9 => 0.9 | 10 => 1 | 11 => 1.1 | 12 => 1.2
  | _ => 1

/-- `self.max_inflight_packets = 10` from `SimulatorServer.__init__`. -/
def max_inflight_packets : ℚ := 10

/-- `self.noise_floor_dbm = -174 + 10 * math.log10(BANDWIDTH) + NOISE_FIGURE`,
with `math.log10` passed in as the explicit parameter `log10`. -/
def noise_floor_dbm (log10 : ℚ → ℚ) : ℚ :=
  -174 + 10 * log10 BANDWIDTH + NOISE_FIGURE

/-- The mutable per-server tables touched by the drop engine and dispatcher:
`rx_busy_until` (a dict read via `.get(nid, 0)`, hence a total function with
default `0`), `loss_streaks` (a `defaultdict(int)`), and the
`active_transmissions` counter. -/
structure ServerState where
  rx_busy_until : ℕ → ℚ
  loss_streaks : ℕ × ℕ → ℕ
  active_transmissions : ℤ

/-- The state of a freshly constructed server: empty busy table, empty
streak table, zero in-flight transmissions. -/
def initState : ServerState :=
  { rx_busy_until := fun _ => 0, loss_streaks := fun _ => 0, active_transmissions := 0 }

/-- Steps 4–9 of `SimulatorServer.should_drop` (the congestion / streak /
SNR-margin / RSSI-margin / interference probability sum, the final uniform
draw `r`, and the loss-streak update).  `expf` stands for `math.exp`. -/
def statistical_drop (st : ServerState) (key : ℕ × ℕ) (rssi snr : ℚ) (sf : ℕ)
    (r : ℚ) (expf : ℚ → ℚ) : Bool × ServerState :=
  let min_snr := (SF_SNR_RANGES sf).1
  let inflight_ratio := (st.active_transmissions : ℚ) / max_inflight_packets
  let congestion_prob := min (inflight_ratio * inflight_ratio) 1 * (1/2)
  let streak_prob := min ((st.loss_streaks key : ℚ) * (7/100)) (35/100)
  let snr_margin := snr - min_snr
  let snr_margin_factor := 4 + ((sf : ℚ) - 7) * (1/4)
  let snr_prob := expf (-snr_margin / snr_margin_factor) * (6/10)
  let rssi_threshold := SF_SENSITIVITY sf + 5
  let rssi_margin := rssi - rssi_threshold
  let rssi_prob := if rssi_margin > 0 then 0 else min (abs (rssi_margin / 10)) 1 * (4/10)
  let base_interference := (3/100) * (st.active_transmissions : ℚ) / max_inflight_packets
  let interference_prob := base_interference * sf_interference_factor sf
  let base_prob := congestion_prob + streak_prob + snr_prob + rssi_prob + interference_prob
  let prob := min base_prob (98/100)
  let drop := decide (r < prob)
  (drop,
   { st with
      loss_streaks := fun k =>
        if k = key then (if drop then st.loss_streaks key + 1 else 0)
        else st.loss_streaks k })

/-- `SimulatorServer.should_drop`.  The early returns (sensitivity, minimum
SNR, and the beyond-max-range roll) leave the state untouched, exactly as in
the source, where `self.loss_streaks` is only written on the fall-through
path.  `rands` is the sequence of `random.random()` draws consumed by this
call (the 5%-sampled debug-log draw has no observable effect and is omitted). -/
def should_drop (st : ServerState) (from_id to_id : ℕ) (rssi snr : ℚ) (sf : ℕ)
    (distance_km : ℚ) (expf : ℚ → ℚ) (rands : List ℚ) : Bool × ServerState :=
  let key := (from_id, to_id)
  if rssi < SF_SENSITIVITY sf then (true, st)
  else if snr < (SF_SNR_RANGES sf).1 then (true, st)
  else
    let distance_ratio := distance_km / SF_MAX_RANGE_KM sf
    if distance_ratio > 1 then
      if rands.headD 0 < min (19/20) ((distance_ratio - 1)^2 * (9/10)) then (true, st)
      else statistical_drop st key rssi snr sf (rands.tail.headD 0) expf
    else statistical_drop st key rssi snr sf (rands.headD 0) expf

/-- `SimulatorServer.get_drop_reason`: collision check first, then hardware
sensitivity, then minimum SNR, then the statistical `should_drop` with its
refined reason labels. -/
def get_drop_reason (st : ServerState) (now rssi : ℚ) (sf nid : ℕ)
    (snr min_snr : ℚ) (from_id : ℕ) (distance_km : ℚ) (expf : ℚ → ℚ)
    (rands : List ℚ) : Option String × ServerState :=
  if now < st.rx_busy_until nid then (some "COLLISION", st)
  else if rssi < SF_SENSITIVITY sf then (some "RSSI_TOO_LOW", st)
  else if snr < min_snr then (some "SNR_TOO_LOW", st)
  else
    let r := should_drop st from_id nid rssi snr sf distance_km expf rands
    if r.1 then
      if (r.2.active_transmissions : ℚ) > max_inflight_packets * (8/10) then
        (some "NETWORK_CONGESTION", r.2)
      else if r.2.loss_streaks (from_id, nid) > 3 then
        (some "PERSISTENT_LINK_FAILURE", r.2)
      else if snr < min_snr + 3 then (some "MARGINAL_SNR", r.2)
      else (some "RANDOM_LOSS", r.2)
    else (none, r.2)

/-- `SimulatorServer.compute_airtime_ms`: the Semtech time-on-air formula as
written in the source, with all its parameters (`bw`, `cr`, `preamble_len`,
`header_enabled`, `low_datarate_optimize`). -/
def compute_airtime_ms (payload_len sf : ℕ) (bw : ℚ) (cr : ℤ) (preamble_len : ℚ)
    (header_enabled : Bool) (low_datarate_optimize : Option Bool) : ℚ :=
  let tsym : ℚ := (2 ^ sf : ℚ) / bw
  let de : ℤ :=
    if (match low_datarate_optimize with
        | some b => b
        | none => decide (11 ≤ sf)) then 1 else 0
  let ih : ℤ := if header_enabled then 0 else 1
  let n_payload : ℤ :=
    8 + max (⌈(8 * (payload_len : ℚ) - 4 * (sf : ℚ) + 28 + 16 - 20 * (ih : ℚ)) /
              (4 * ((sf : ℚ) - 2 * (de : ℚ)))⌉ * (cr + 4)) 0
  let t_preamble := (preamble_len + 4.25) * tsym
  let t_payload := (n_payload : ℚ) * tsym
  (t_preamble + t_payload) * 1000

/-- `SimulatorServer.snr_penalty_sigmoid`; `expf` stands for `math.exp`. -/
def snr_penalty_sigmoid (expf : ℚ → ℚ) (snr snr_min snr_max : ℚ) : ℚ :=
  let mid_point := snr_min + (snr_max - snr_min) / 3
  let k : ℚ := 3/2
  let max_penalty : ℚ := 50
  max_penalty / (1 + expf (k * (snr - mid_point)))

/-- `SimulatorServer.calculate_transmission_delay`: airtime plus propagation,
SNR sigmoid penalty, weather/obstacle-scaled processing time, and the drawn
jitter (`random.uniform(0.5, 3.0) * (sf / 7.0)` in the source, passed here as
the explicit argument `jitter_ms`). -/
def calculate_transmission_delay (expf : ℚ → ℚ) (snr : ℚ) (sf : ℕ)
    (weather : String) (distance_km : ℚ) (obstacle : String)
    (payload_len : ℕ) (jitter_ms : ℚ) : ℚ :=
  let airtime_ms := compute_airtime_ms payload_len sf BANDWIDTH 1 8 true none
  let propagation_delay_ms := distance_km / 300000 * 1000
  let snr_penalty_ms :=
    snr_penalty_sigmoid expf snr (SF_SNR_RANGES sf).1 (SF_SNR_RANGES sf).2
  let weather_factor := weather_delay_base weather * (1 - ((sf : ℚ) - 7) * (1/100))
  let obstacle_factor :=
    if obstacle ≠ "open" then
      (1 + OBSTACLE_LOSS_DB obstacle / 50) * (1 - ((sf : ℚ) - 7) * (2/100))
    else 1
  let base_processing_ms := 2 + ((sf : ℚ) - 7) * (3/2)
  let processing_delay_ms := base_processing_ms * weather_factor * obstacle_factor
  airtime_ms + propagation_delay_ms + snr_penalty_ms + processing_delay_ms + jitter_ms

/-- The per-target tail of `SimulatorServer._process_transmission`
(source lines 723–733): ask `get_drop_reason`; on a drop the target is
skipped, otherwise `rx_busy_until[nid]` is set to `now + delay_ms / 1000`
and the frame is delivered. -/
def process_target (st : ServerState) (now delay_ms : ℚ) (nid from_id : ℕ)
    (rssi snr : ℚ) (sf : ℕ) (min_snr distance_km : ℚ) (expf : ℚ → ℚ)
    (rands : List ℚ) : Option String × ServerState :=
  let r := get_drop_reason st now rssi sf nid snr min_snr from_id distance_km expf rands
  match r.1 with
  | some reason => (some reason, r.2)
  | none =>
    (none,
     { r.2 with
        rx_busy_until := fun m =>
          if m = nid then now + delay_ms / 1000 else r.2.rx_busy_until m })

/-- The RSSI line of `_process_transmission` (source line 715):
`min(-35, max(-150, tx_dbm - path_loss)) + random.uniform(-1.5, 1.5)`,
with the drawn jitter passed explicitly. -/
def rssi_with_jitter (tx_dbm path_loss jitter : ℚ) : ℚ :=
  min (-35) (max (-150) (tx_dbm - path_loss)) + jitter

/-- The urban-noise term of `compute_snr` (step 3):
`3.0 - distance_km * 0.4` below 5 km, else `1.0`. -/
def snr_urban_noise (distance_km : ℚ) : ℚ :=
  if distance_km < 5 then 3 - distance_km * (4/10) else 1

/-- The aggregated `noise_power` local of `compute_snr` (steps 1–4):
thermal floor plus weather noise plus urban noise. -/
def snr_noise_power (log10 : ℚ → ℚ) (weather : String) (distance_km : ℚ) : ℚ :=
  noise_floor_dbm log10 + weather_noise_addition weather + snr_urban_noise distance_km

/-- The `raw_snr` local of `compute_snr` (step 6): `rssi - noise_power`. -/
def snr_raw (log10 : ℚ → ℚ) (rssi : ℚ) (weather : String) (distance_km : ℚ) : ℚ :=
  rssi - snr_noise_power log10 weather distance_km

/-- The `effective_snr` local of `compute_snr` (steps 5 and 7):
`min(raw_snr + processing_gain / 10, max_snr)` with
`processing_gain = 10 * log10(2 ** sf)`. -/
def snr_effective (log10 : ℚ → ℚ) (rssi : ℚ) (sf : ℕ) (weather : String)
    (distance_km : ℚ) : ℚ :=
  let processing_gain := 10 * log10 ((2 : ℚ) ^ sf)
  min (snr_raw log10 rssi weather distance_km + processing_gain / 10)
    (SF_SNR_RANGES sf).2

/-- Python-dict insertion for association lists: the new binding replaces any
earlier binding of the same key. -/
def dict_insert {α : Type} (k : ℕ) (v : α) (m : List (ℕ × α)) : List (ℕ × α) :=
  (k, v) :: m.filter (fun p => p.1 != k)

/-- Python `dict.pop(k, None)`: remove the binding of `k`, if any. -/
def dict_pop {α : Type} (k : ℕ) (m : List (ℕ × α)) : List (ℕ × α) :=
  m.filter (fun p => p.1 != k)

/-- The three registry dictionaries of the server: `self.clients`
(node id → transport handle, embedded as a connection number),
`self.node_locations` and `self.node_frequency`. -/
structure Registry where
  clients : List (ℕ × ℕ)
  node_locations : List (ℕ × (ℚ × ℚ))
  node_frequency : List (ℕ × ℚ)
deriving DecidableEq

/-- The registry of a freshly constructed server: all three dicts empty. -/
def emptyRegistry : Registry := ⟨[], [], []⟩

/-- The `register` branch of `_handle_client`: under the lock, store the
connection, the location and the frequency under the node id. -/
def register_node (reg : Registry) (node_id conn : ℕ) (location : ℚ × ℚ)
    (frequency : ℚ) : Registry :=
  { clients := dict_insert node_id conn reg.clients
    node_locations := dict_insert node_id location reg.node_locations
    node_frequency := dict_insert node_id frequency reg.node_frequency }

/-- The `finally` block of `_handle_client` (source lines 640–643):
`if node_id: self.clients.pop(node_id, None)`.  Only `clients` is touched;
`node_id` is the handler's local (`None` before any registration), and
Python truthiness skips the pop when it is `None` or `0`. -/
def session_cleanup (reg : Registry) (node_id : Option ℕ) : Registry :=
  match node_id with
  | some n => if n ≠ 0 then { reg with clients := dict_pop n reg.clients } else reg
  | none => reg

/-- Target resolution of `_process_transmission` (source lines 682–700):
unicast requires the destination to be registered and on the sender's
frequency (else `FREQ_MISMATCH` / `INVALID_DESTINATION`, no targets);
`destination == 255` broadcasts to every registered peer other than the
sender whose frequency equals the sender's. -/
def resolve_targets (reg : Registry) (from_id to_id : ℕ) : List ℕ :=
  let sender_freq := reg.node_frequency.lookup from_id
  if to_id ≠ 255 then
    match reg.clients.lookup to_id with
    | some _ =>
      if sender_freq = reg.node_frequency.lookup to_id then [to_id] else []
    | none => []
  else
    (reg.clients.filter (fun p =>
      p.1 != from_id && decide (reg.node_frequency.lookup p.1 = sender_freq))).map
      (fun p => p.1)

/-- The projection of a decoded JSON line onto the keys the session loop
reads.  A `none` field means the key is absent from the object, so the
corresponding `msg[...]` subscript raises `KeyError` in the source. -/
structure Msg where
  type : Option String
  node_id : Option ℕ
  location : Option (ℚ × ℚ)
  frequency : Option ℚ
deriving DecidableEq

/-- One decoded message in the body of the `_handle_client` loop.  Returns
`none` when the source raises an uncaught `KeyError` (subscripting a missing
`"type"`, `"node_id"` or `"frequency"` key); otherwise the updated registry
and the handler's local `node_id`.  A `tx` or unknown `type` leaves the
registry tables untouched (`_process_transmission` only reads them). -/
def handle_msg (reg : Registry) (conn : ℕ) (node_id : Option ℕ) (m : Msg) :
    Option (Registry × Option ℕ) :=
  match m.type with
  | none => none
  | some t =>
    if t = "register" then
      match m.node_id, m.frequency with
      | some nid, some f =>
        some (register_node reg nid conn (m.location.getD (0, 0)) f, some nid)
      | _, _ => none
    else some (reg, node_id)

/-- The `_handle_client` read loop over a list of lines (`none` = a line that
fails JSON decoding, which the `except json.JSONDecodeError: continue` arm
silently skips).  Returns the registry after the `finally` cleanup, whether
the session ended by an uncaught exception, and how many trailing lines were
left unprocessed. -/
def run_session (reg : Registry) (conn : ℕ) (node_id : Option ℕ) :
    List (Option Msg) → Registry × Bool × ℕ
  | [] => (session_cleanup reg node_id, false, 0)
  | none :: rest => run_session reg conn node_id rest
  | some m :: rest =>
    match handle_msg reg conn node_id m with
    | none => (session_cleanup reg node_id, true, rest.length)
    | some (reg1, nid1) => run_session reg1 conn nid1 rest

/-- Modelled from the spec (claim C4, amended): the effective SNR written as
one formula — raw SNR is the RSSI minus the aggregate noise power (thermal
floor `-174 + 10*log10(BW) + NF` plus weather noise plus urban noise), and
the effective SNR is the raw SNR plus `10*log10(2^SF)/10`, capped at the
SF's theoretical maximum SNR. -/
def snr_effective_amended (log10 : ℚ → ℚ) (rssi : ℚ) (sf : ℕ) (weather : String)
    (distance_km : ℚ) : ℚ :=
  let N := -174 + 10 * log10 125000 + 6
  let noise := N + weather_noise_addition weather +
    (if distance_km < 5 then 3 - (4/10) * distance_km else 1)
  min ((rssi - noise) + (10 * log10 ((2 : ℚ) ^ sf)) / 10) (SF_SNR_RANGES sf).2

/-- Modelled from the spec (claim C5): the quoted Semtech time-on-air formula
with `Ts = 2^SF / 125000`, `preamble_len = 8`, `DE = 1` iff `SF ≥ 11`,
`IH = 0`, `CR = 1`, and
`n_payload = 8 + max(ceil((8L - 4SF + 28 + 16 - 20 IH)/(4(SF - 2 DE))) * (CR+4), 0)`. -/
def t_air_ms_claim (payload_len sf : ℕ) : ℚ :=
  let Ts : ℚ := (2 ^ sf : ℚ) / 125000
  let DE : ℤ := if 11 ≤ sf then 1 else 0
  let IH : ℚ := 0
  let n_payload : ℤ :=
    8 + max (⌈(8 * (payload_len : ℚ) - 4 * (sf : ℚ) + 28 + 16 - 20 * IH) /
              (4 * ((sf : ℚ) - 2 * (DE : ℚ)))⌉ * (1 + 4)) 0
  ((8 + 4.25) + (n_payload : ℚ)) * Ts * 1000

/-- How `statistical_drop` writes the loss-streak table: the key of the call
gets `old + 1` on a drop and `0` on a keep, every other key is untouched. -/
lemma statistical_drop_streak_update (st : ServerState) (key : ℕ × ℕ)
    (rssi snr : ℚ) (sf : ℕ) (r : ℚ) (expf : ℚ → ℚ) :
    ((statistical_drop st key rssi snr sf r expf).2.loss_streaks key =
      if (statistical_drop st key rssi snr sf r expf).1 then
        st.loss_streaks key + 1 else 0) ∧
    ∀ k, k ≠ key →
      (statistical_drop st key rssi snr sf r expf).2.loss_streaks k =
        st.loss_streaks k := by
  constructor
  · dsimp only [statistical_drop]
    rw [if_pos rfl]
  · intro k hk
    dsimp only [statistical_drop]
    rw [if_neg hk]

/-- Claim C1 counterexample: the sender–receiver distance `30 km` exceeds the
claimed hard cap of `25 km`, yet `get_drop_reason` returns the
`RSSI_TOO_LOW` verdict, not `OUT_OF_RANGE` — the claimed range check does
not run before the RSSI check (it does not exist at all). -/
theorem out_of_range_counterexample :
    (30 : ℚ) > 25 ∧
      (get_drop_reason initState 1 (-140) 7 2 0 (-7.5) 1 30 (fun _ => 1) []).1 =
        some "RSSI_TOO_LOW" := by
  constructor
  · norm_num
  · norm_num [get_drop_reason, initState, SF_SENSITIVITY]

/-- Claim C1 (amended): the server has no `OUT_OF_RANGE` verdict.  A
transmission beyond `25 km` is not short-circuited on distance; whatever the
state, inputs, random draws and exponential oracle, `get_drop_reason` never
returns `OUT_OF_RANGE` (distance only enters through the probabilistic
range-ratio roll inside `should_drop`, whose drops are labelled with the
statistical reasons). -/
theorem no_out_of_range_verdict (st : ServerState)
    (now rssi snr min_snr distance_km : ℚ) (sf nid from_id : ℕ)
    (expf : ℚ → ℚ) (rands : List ℚ) :
    (get_drop_reason st now rssi sf nid snr min_snr from_id distance_km expf rands).1 ≠
      some "OUT_OF_RANGE" := by
  unfold get_drop_reason
  cases h : (should_drop st from_id nid rssi snr sf distance_km expf rands).1 <;>
      split_ifs <;> simp_all <;> split_ifs <;> simp_all

/-- Claim C2 counterexample: from the initial state, a single `RSSI_TOO_LOW`
drop verdict for the pair `(1, 2)` leaves `loss_streak[(1,2)]` at `0`,
although the trailing run of consecutive drops has length `1` — so not every
drop verdict increments the streak. -/
theorem streak_not_incremented_counterexample :
    (get_drop_reason initState 1 (-140) 7 2 0 (-7.5) 1 1 (fun _ => 1) []).1 =
        some "RSSI_TOO_LOW" ∧
      ((get_drop_reason initState 1 (-140) 7 2 0 (-7.5) 1 1 (fun _ => 1) []).2).loss_streaks
        (1, 2) = 0 := by
  constructor <;> norm_num [get_drop_reason, initState, SF_SENSITIVITY]

/-- Claim C2 (amended): only the final statistical stage of `should_drop`
touches the loss streak.  A `COLLISION` verdict, an `RSSI_TOO_LOW` or
`SNR_TOO_LOW` early return, and a successful range-ratio roll all leave the
server state — in particular every streak — unchanged; the statistical stage
increments the streak of the pair on a drop, resets it to `0` on a keep, and
never touches any other pair. -/
theorem streak_discipline (st : ServerState)
    (now rssi snr min_snr distance_km : ℚ) (sf nid from_id : ℕ)
    (expf : ℚ → ℚ) (rands : List ℚ) :
    (now < st.rx_busy_until nid →
      (get_drop_reason st now rssi sf nid snr min_snr from_id distance_km expf rands).2 =
        st) ∧
    (rssi < SF_SENSITIVITY sf →
      should_drop st from_id nid rssi snr sf distance_km expf rands = (true, st)) ∧
    (¬ rssi < SF_SENSITIVITY sf → snr < (SF_SNR_RANGES sf).1 →
      should_drop st from_id nid rssi snr sf distance_km expf rands = (true, st)) ∧
    (¬ rssi < SF_SENSITIVITY sf → ¬ snr < (SF_SNR_RANGES sf).1 →
      distance_km / SF_MAX_RANGE_KM sf > 1 →
      rands.headD 0 < min (19/20) ((distance_km / SF_MAX_RANGE_KM sf - 1)^2 * (9/10)) →
      should_drop st from_id nid rssi snr sf distance_km expf rands = (true, st)) ∧
    (∀ r : ℚ,
      ((statistical_drop st (from_id, nid) rssi snr sf r expf).1 = true →
        ((statistical_drop st (from_id, nid) rssi snr sf r expf).2).loss_streaks
            (from_id, nid) =
          st.loss_streaks (from_id, nid) + 1) ∧
      ((statistical_drop st (from_id, nid) rssi snr sf r expf).1 = false →
        ((statistical_drop st (from_id, nid) rssi snr sf r expf).2).loss_streaks
            (from_id, nid) = 0) ∧
      (∀ k, k ≠ (from_id, nid) →
        ((statistical_drop st (from_id, nid) rssi snr sf r expf).2).loss_streaks k =
          st.loss_streaks k)) := by
  refine ⟨?_, ?_, ?_, ?_, ?_⟩
  · intro h
    unfold get_drop_reason
    rw [if_pos h]
  · intro h
    unfold should_drop
    rw [if_pos h]
  · intro h1 h2
    unfold should_drop
    rw [if_neg h1, if_pos h2]
  · intro h1 h2 h3 h4
    unfold should_drop
    rw [if_neg h1, if_neg h2, if_pos h3, if_pos h4]
  · intro r
    obtain ⟨h1, h2⟩ := statistical_drop_streak_update st (from_id, nid) rssi snr sf r expf
    refine ⟨?_, ?_, h2⟩
    · intro h
      rw [h1, h]
      simp
    · intro h
      rw [h1, h]
      simp

/-- Witness for the amended claim C2: at a concrete in-range, good-signal
input with decision draw `7/10` against drop probability `3/5`, the
statistical stage keeps the packet and resets the streak to `0`. -/
theorem streak_discipline_witness :
    ((statistical_drop initState (1, 2) (-50) 5 7 (7/10) (fun _ => 1)).2).loss_streaks
      (1, 2) = 0 :=
  ((streak_discipline initState 1 (-50) 5 (-7.5) 1 7 2 1 (fun _ => 1)
    []).2.2.2.2 (7/10)).2.1
    (by norm_num [statistical_drop, initState, SF_SNR_RANGES, SF_SENSITIVITY,
      sf_interference_factor, max_inflight_packets])

/-- Claim C3 counterexample: with `tx_dbm = 23`, `path_loss = 40` and a
legal jitter of `+1` dB (inside `[-1.5, 1.5]`), the computed RSSI is
`-34` dBm, which lies outside the claimed interval `[-150, -35]` — the
source clamps before adding the jitter, not after. -/
theorem rssi_clamp_counterexample :
    (-(3/2) : ℚ) ≤ 1 ∧ (1 : ℚ) ≤ 3/2 ∧
      rssi_with_jitter 23 40 1 = -34 ∧ ¬ rssi_with_jitter 23 40 1 ≤ -35 := by
  refine ⟨by norm_num, by norm_num, by norm_num [rssi_with_jitter],
    by norm_num [rssi_with_jitter]⟩

/-- Claim C3 (amended): the clamp to `[-150, -35]` dBm is applied to the raw
RSSI `tx_dbm - path_loss` before the uniform jitter in `[-1.5, 1.5]` dB is
added, so every computed RSSI lies in `[-151.5, -33.5]` dBm (and can exceed
`-35` dBm by up to `1.5` dB). -/
theorem rssi_bounds (tx_dbm path_loss jitter : ℚ)
    (h1 : -(3/2) ≤ jitter) (h2 : jitter ≤ 3/2) :
    -(303/2) ≤ rssi_with_jitter tx_dbm path_loss jitter ∧
      rssi_with_jitter tx_dbm path_loss jitter ≤ -(67/2) := by
  unfold rssi_with_jitter
  constructor
  · have hlow : (-150 : ℚ) ≤ min (-35) (max (-150) (tx_dbm - path_loss)) := by
      apply le_min (by norm_num)
      exact le_max_left _ _
    linarith
  · have hhigh : min (-35) (max (-150) (tx_dbm - path_loss)) ≤ -35 :=
      min_le_left _ _
    linarith

/-- Witness for the amended claim C3: the bounds hold at the concrete input
`tx_dbm = 23`, `path_loss = 40`, `jitter = 1`. -/
theorem rssi_bounds_witness :
    -(303/2) ≤ rssi_with_jitter 23 40 1 ∧ rssi_with_jitter 23 40 1 ≤ -(67/2) :=
  rssi_bounds 23 40 1 (by norm_num) (by norm_num)

/-- Claim C4 counterexample: at `RSSI = -100` dBm, SF 7, distance `1` km and
clear weather (evaluating `log10` by an arbitrary concrete oracle, which the
discrepancy does not depend on), the raw SNR of the source is `77/5` while
the claimed `RSSI - N` is `18`: the source adds urban and weather noise to
the thermal floor, so the raw SNR is not `RSSI - N`. -/
theorem snr_noise_counterexample :
    snr_raw (fun _ => 5) (-100) "clear" 1 ≠ -100 - noise_floor_dbm (fun _ => 5) := by
  norm_num [snr_raw, snr_noise_power, noise_floor_dbm, weather_noise_addition,
    snr_urban_noise, BANDWIDTH, NOISE_FIGURE]

/-- Claim C4 (amended): the noise power subtracted from the RSSI is the
thermal floor `N = -174 + 10*log10(125000) + 6` plus the weather noise
addition plus the urban-noise term (`3 - 0.4*d` below 5 km, else `1`), and
the effective SNR is the raw SNR plus the dampened processing gain
`10*log10(2^SF)/10`, capped at the SF's theoretical maximum. -/
theorem snr_model (log10 : ℚ → ℚ) (rssi : ℚ) (sf : ℕ) (weather : String)
    (distance_km : ℚ) :
    snr_effective log10 rssi sf weather distance_km =
      snr_effective_amended log10 rssi sf weather distance_km := by
  unfold snr_effective snr_effective_amended snr_raw snr_noise_power
    noise_floor_dbm snr_urban_noise BANDWIDTH NOISE_FIGURE
  split_ifs <;> ring_nf

/-- Claim C5: the source's `compute_airtime_ms` at the dispatcher's call
site (`bw = 125000`, `cr = 1`, `preamble_len = 8`, explicit header,
automatic low-data-rate optimization) equals the spec's quoted Semtech
formula for every payload length and spreading factor — in particular for
every `L ≥ 0` and `SF ∈ {7..12}`. -/
theorem airtime_formula (payload_len sf : ℕ) :
    compute_airtime_ms payload_len sf 125000 1 8 true none =
      t_air_ms_claim payload_len sf := by
  unfold compute_airtime_ms t_air_ms_claim
  by_cases h : 11 ≤ sf <;> simp [h] <;> norm_num <;> ring

/-- Every entry of the obstacle-loss table is nonnegative. -/
lemma obstacle_loss_nonneg (o : String) : 0 ≤ OBSTACLE_LOSS_DB o := by
  unfold OBSTACLE_LOSS_DB
  split <;> norm_num

/-- Every entry of the weather delay-factor table is at least `1`. -/
lemma weather_delay_base_ge_one (w : String) : 1 ≤ weather_delay_base w := by
  unfold weather_delay_base
  split_ifs <;> norm_num

/-- Shape of the time-on-air expression: positive for a positive symbol time,
whatever the payload symbol-count ceiling turns out to be. -/
lemma airtime_shape_pos (tsym : ℚ) (htsym : 0 < tsym) (c : ℤ) :
    0 < (((8 : ℚ) + 4.25) * tsym + ((8 + max (c * (1 + 4)) 0 : ℤ) : ℚ) * tsym) * 1000 := by
  have h : (0 : ℤ) ≤ 8 + max (c * (1 + 4)) 0 := by
    have := le_max_right (c * (1 + 4)) (0 : ℤ)
    omega
  have h2 : (0 : ℚ) ≤ ((8 + max (c * (1 + 4)) 0 : ℤ) : ℚ) := by exact_mod_cast h
  have hA : 0 < ((8 : ℚ) + 4.25) * tsym := mul_pos (by norm_num) htsym
  have hB : 0 ≤ ((8 + max (c * (1 + 4)) 0 : ℤ) : ℚ) * tsym := mul_nonneg h2 htsym.le
  exact mul_pos (add_pos_of_pos_of_nonneg hA hB) (by norm_num)

/-- The time-on-air at the dispatcher's call site is strictly positive. -/
lemma airtime_pos (L sf : ℕ) : 0 < compute_airtime_ms L sf BANDWIDTH 1 8 true none := by
  dsimp only [compute_airtime_ms, BANDWIDTH]
  exact airtime_shape_pos _ (by positivity) _

/-- The total transmission delay is strictly positive for `SF ∈ {7..12}`, a
nonnegative distance, a nonnegative jitter and a positive exponential
oracle. -/
lemma delay_pos (expf : ℚ → ℚ) (hexp : ∀ x, 0 < expf x) (snr : ℚ) (sf : ℕ)
    (h7 : 7 ≤ sf) (h12 : sf ≤ 12) (weather obstacle : String)
    (distance_km : ℚ) (hd : 0 ≤ distance_km) (payload_len : ℕ)
    (jitter_ms : ℚ) (hj : 0 ≤ jitter_ms) :
    0 < calculate_transmission_delay expf snr sf weather distance_km obstacle
      payload_len jitter_ms := by
  have hsf7 : (7 : ℚ) ≤ (sf : ℚ) := by exact_mod_cast h7
  have hsf12 : (sf : ℚ) ≤ 12 := by exact_mod_cast h12
  have hair := airtime_pos payload_len sf
  have hprop : 0 ≤ distance_km / 300000 * 1000 := by positivity
  have hpen : 0 < snr_penalty_sigmoid expf snr (SF_SNR_RANGES sf).1
      (SF_SNR_RANGES sf).2 := by
    unfold snr_penalty_sigmoid
    dsimp only
    have he := hexp ((3/2) * (snr - ((SF_SNR_RANGES sf).1 +
      ((SF_SNR_RANGES sf).2 - (SF_SNR_RANGES sf).1) / 3)))
    exact div_pos (by norm_num) (by linarith)
  have hwf : 0 < weather_delay_base weather * (1 - ((sf : ℚ) - 7) * (1/100)) := by
    have h1 := weather_delay_base_ge_one weather
    have h2 : 0 < 1 - ((sf : ℚ) - 7) * (1/100) := by nlinarith
    nlinarith
  have hof : 0 < (if obstacle ≠ "open" then
      (1 + OBSTACLE_LOSS_DB obstacle / 50) * (1 - ((sf : ℚ) - 7) * (2/100))
    else 1) := by
    split_ifs
    · have h1 := obstacle_loss_nonneg obstacle
      have h2 : 0 < 1 - ((sf : ℚ) - 7) * (2/100) := by nlinarith
      nlinarith
    · norm_num
  have hbase : 0 < 2 + ((sf : ℚ) - 7) * (3/2) := by nlinarith
  have hproc : 0 < (2 + ((sf : ℚ) - 7) * (3/2)) *
      (weather_delay_base weather * (1 - ((sf : ℚ) - 7) * (1/100))) *
      (if obstacle ≠ "open" then
        (1 + OBSTACLE_LOSS_DB obstacle / 50) * (1 - ((sf : ℚ) - 7) * (2/100))
      else 1) := mul_pos (mul_pos hbase hwf) hof
  unfold calculate_transmission_delay
  dsimp only
  linarith

/-- Claim C6: the collision check runs first — whenever `now` is inside the
receiver's busy window, the verdict is `COLLISION` regardless of RSSI, SNR,
randomness and streak state — and whenever the per-target dispatch step
admits a delivery at `now` with the delay computed by
`calculate_transmission_delay`, the receiver's busy deadline strictly
increases (to `now + delay/1000`). -/
theorem collision_first_and_busy_monotone (st : ServerState)
    (now rssi snr min_snr distance_km jitter_ms : ℚ)
    (sf nid from_id payload_len : ℕ) (weather obstacle : String)
    (expf : ℚ → ℚ) (rands : List ℚ) :
    (now < st.rx_busy_until nid →
      (get_drop_reason st now rssi sf nid snr min_snr from_id distance_km expf
        rands).1 = some "COLLISION") ∧
    (7 ≤ sf → sf ≤ 12 → 0 ≤ distance_km → 0 ≤ jitter_ms → (∀ x, 0 < expf x) →
      (process_target st now
        (calculate_transmission_delay expf snr sf weather distance_km obstacle
          payload_len jitter_ms) nid from_id rssi snr sf min_snr distance_km
        expf rands).1 = none →
      st.rx_busy_until nid <
        (process_target st now
          (calculate_transmission_delay expf snr sf weather distance_km obstacle
            payload_len jitter_ms) nid from_id rssi snr sf min_snr distance_km
          expf rands).2.rx_busy_until nid) := by
  constructor
  · intro h
    unfold get_drop_reason
    rw [if_pos h]
  · intro h7 h12 hd hj hexp hres
    have hD : 0 < calculate_transmission_delay expf snr sf weather distance_km
        obstacle payload_len jitter_ms :=
      delay_pos expf hexp snr sf h7 h12 weather obstacle distance_km hd
        payload_len jitter_ms hj
    unfold process_target at hres ⊢
    dsimp only at hres ⊢
    cases hr : (get_drop_reason st now rssi sf nid snr min_snr from_id
        distance_km expf rands).1 with
    | some s =>
      rw [hr] at hres
      simp at hres
    | none =>
      have hnow : ¬ now < st.rx_busy_until nid := by
        intro hlt
        unfold get_drop_reason at hr
        rw [if_pos hlt] at hr
        simp at hr
      push_neg at hnow
      dsimp only
      rw [if_pos rfl]
      have : st.rx_busy_until nid ≤ now := hnow
      linarith

/-- Witness for claim C6: a concrete admitted delivery (good signal at 1 km,
SF 7, empty busy table, decision draw `7/10` against drop probability `3/5`)
strictly raises the receiver's busy deadline. -/
theorem collision_first_and_busy_monotone_witness :
    initState.rx_busy_until 2 <
      (process_target initState 1
        (calculate_transmission_delay (fun _ => 1) 5 7 "clear" 1 "open" 16 1)
        2 1 (-50) 5 7 (-7.5) 1 (fun _ => 1) [7/10]).2.rx_busy_until 2 :=
  (collision_first_and_busy_monotone initState 1 (-50) 5 (-7.5) 1 1 7 2 1 16
    "clear" "open" (fun _ => 1) [7/10]).2 (by norm_num) (by norm_num)
    (by norm_num) (by norm_num) (fun x => one_pos)
    (by norm_num [process_target, get_drop_reason, should_drop, statistical_drop,
      initState, SF_SENSITIVITY, SF_SNR_RANGES, SF_MAX_RANGE_KM,
      sf_interference_factor, max_inflight_packets])

/-- Inserting a binding makes it the one found by lookup. -/
lemma dict_insert_lookup {α : Type} (k : ℕ) (v : α) (m : List (ℕ × α)) :
    (dict_insert k v m).lookup k = some v := by
  simp [dict_insert, List.lookup]

/-- After popping a key, looking it up yields nothing. -/
lemma dict_pop_lookup {α : Type} (k : ℕ) (m : List (ℕ × α)) :
    (dict_pop k m).lookup k = none := by
  induction m with
  | nil => rfl
  | cons a t ih =>
    rcases a with ⟨ka, va⟩
    by_cases h : ka = k
    · simpa [dict_pop, List.filter_cons, h] using ih
    · have hk : (k == ka) = false := beq_eq_false_iff_ne.mpr (Ne.symm h)
      have hk2 : (ka != k) = true := bne_iff_ne.mpr h
      simpa [dict_pop, List.filter_cons, hk2, List.lookup, hk] using ih

/-- A key has a successful lookup exactly when some binding of it is in the
association list. -/
lemma lookup_isSome_iff_mem {α : Type} (k : ℕ) (m : List (ℕ × α)) :
    (m.lookup k).isSome ↔ ∃ v, (k, v) ∈ m := by
  induction m with
  | nil => simp [List.lookup]
  | cons a t ih =>
    rcases a with ⟨ka, va⟩
    by_cases h : k = ka
    · subst h
      simp [List.lookup]
    · have hk : (k == ka) = false := beq_eq_false_iff_ne.mpr h
      simp [List.lookup, hk, h, Prod.ext_iff, ih]

/-- Claim C7 counterexample: register node `1` (connection `5`, location
`(2,3)`, frequency `915`), then run the disconnect cleanup for it.  The
transport handle is gone, but the location and the frequency entries are
still present — the record is not entirely removed. -/
theorem cleanup_leaves_attributes_counterexample :
    (session_cleanup (register_node emptyRegistry 1 5 (2, 3) 915)
        (some 1)).clients.lookup 1 = none ∧
      (session_cleanup (register_node emptyRegistry 1 5 (2, 3) 915)
          (some 1)).node_locations.lookup 1 = some (2, 3) ∧
      (session_cleanup (register_node emptyRegistry 1 5 (2, 3) 915)
          (some 1)).node_frequency.lookup 1 = some 915 := by
  refine ⟨?_, ?_, ?_⟩ <;>
    norm_num [session_cleanup, register_node, emptyRegistry, dict_pop,
      dict_insert, List.lookup, List.filter]

/-- Claim C7 (amended): the session cleanup removes only the transport
handle: for a registered node id `n ≠ 0` the `clients` entry is popped,
while the `node_locations` and `node_frequency` tables are left exactly as
they were (and for `n = 0` even the transport entry survives, by Python
truthiness of `if node_id:`). -/
theorem cleanup_removes_only_transport (reg : Registry) (n : ℕ) (h : n ≠ 0) :
    (session_cleanup reg (some n)).node_locations = reg.node_locations ∧
      (session_cleanup reg (some n)).node_frequency = reg.node_frequency ∧
      (session_cleanup reg (some n)).clients.lookup n = none := by
  simp only [session_cleanup]
  rw [if_pos h]
  exact ⟨rfl, rfl, dict_pop_lookup n reg.clients⟩

/-- Witness for the amended claim C7: concrete instance at node id `4`. -/
theorem cleanup_removes_only_transport_witness :
    (session_cleanup (register_node emptyRegistry 4 9 (1, 1) 868)
        (some 4)).node_locations =
        (register_node emptyRegistry 4 9 (1, 1) 868).node_locations ∧
      (session_cleanup (register_node emptyRegistry 4 9 (1, 1) 868)
          (some 4)).node_frequency =
        (register_node emptyRegistry 4 9 (1, 1) 868).node_frequency ∧
      (session_cleanup (register_node emptyRegistry 4 9 (1, 1) 868)
          (some 4)).clients.lookup 4 = none :=
  cleanup_removes_only_transport (register_node emptyRegistry 4 9 (1, 1) 868) 4
    (by norm_num)

/-- Claim C8: every resolved target is a registered peer on the sender's
frequency, and for `destination = 255` the target set is exactly the
registered peers sharing the sender's frequency, the sender excluded. -/
theorem frequency_filter (reg : Registry) (from_id to_id nid : ℕ) :
    (nid ∈ resolve_targets reg from_id to_id →
      (reg.clients.lookup nid).isSome ∧
        reg.node_frequency.lookup nid = reg.node_frequency.lookup from_id) ∧
    (nid ∈ resolve_targets reg from_id 255 ↔
      nid ≠ from_id ∧ (reg.clients.lookup nid).isSome ∧
        reg.node_frequency.lookup nid = reg.node_frequency.lookup from_id) := by
  have hbc : ∀ n, n ∈ resolve_targets reg from_id 255 ↔
      n ≠ from_id ∧ (reg.clients.lookup n).isSome ∧
        reg.node_frequency.lookup n = reg.node_frequency.lookup from_id := by
    intro n
    unfold resolve_targets
    rw [if_neg (by simp)]
    simp only [List.mem_map, List.mem_filter, Bool.and_eq_true, bne_iff_ne,
      decide_eq_true_eq, lookup_isSome_iff_mem]
    constructor
    · rintro ⟨⟨ka, va⟩, ⟨hmem, hne, hfq⟩, rfl⟩
      exact ⟨hne, ⟨va, hmem⟩, hfq⟩
    · rintro ⟨hne, ⟨va, hmem⟩, hfq⟩
      exact ⟨(n, va), ⟨hmem, hne, hfq⟩, rfl⟩
  refine ⟨?_, hbc nid⟩
  intro hmem
  by_cases hto : to_id ≠ 255
  · unfold resolve_targets at hmem
    rw [if_pos hto] at hmem
    cases hcl : reg.clients.lookup to_id with
    | none =>
      rw [hcl] at hmem
      simp at hmem
    | some c =>
      rw [hcl] at hmem
      split_ifs at hmem with hf
      · simp only [List.mem_singleton] at hmem
        subst hmem
        rw [hcl]
        exact ⟨rfl, hf.symm⟩
      · simp at hmem
  · push_neg at hto
    subst hto
    exact ((hbc nid).1 hmem).2

/-- Witness for claim C8 (the broadcast scenario of the spec: sender `1` at
frequency `915`, peers `2` at `915` and `3` at `868`): peer `2` is a target
and is registered on the sender's frequency. -/
theorem frequency_filter_witness :
    ((Registry.mk [(1, 10), (2, 20), (3, 30)] []
        [(1, 915), (2, 915), (3, 868)]).clients.lookup 2).isSome ∧
      (Registry.mk [(1, 10), (2, 20), (3, 30)] []
          [(1, 915), (2, 915), (3, 868)]).node_frequency.lookup 2 =
        (Registry.mk [(1, 10), (2, 20), (3, 30)] []
            [(1, 915), (2, 915), (3, 868)]).node_frequency.lookup 1 :=
  (frequency_filter (Registry.mk [(1, 10), (2, 20), (3, 30)] []
      [(1, 915), (2, 915), (3, 868)]) 1 255 2).1
    (by simp [resolve_targets, List.filter_cons, List.lookup, Bool.and_eq_true,
      bne_iff_ne, decide_eq_true_eq])

/-- Claim C9 counterexample: with node id `0` (a legal id, `0–254`), the
double-registration scenario does not end with the entry removed — after
connection A's cleanup the registry still maps id `0` to connection B's
transport (`2`), because `if node_id:` is false for `0` and the pop is
skipped. -/
theorem stale_cleanup_counterexample :
    (session_cleanup
        (register_node (register_node emptyRegistry 0 1 (0, 0) 915) 0 2 (0, 0) 915)
        (some 0)).clients.lookup 0 = some 2 := by
  norm_num [session_cleanup, register_node, emptyRegistry, dict_insert,
    List.lookup, List.filter]

/-- Claim C9 (amended): for every node id `n ≠ 0`, if `n` registers on
connection A and then again on connection B (so the registry maps `n` to
B's transport), the cleanup run when connection A closes pops the entry
keyed by `n` — deregistering the still-connected connection B and leaving
`n` with no registered transport. -/
theorem stale_cleanup_deregisters_replacement (reg : Registry)
    (n cA cB : ℕ) (locA locB : ℚ × ℚ) (fA fB : ℚ) (h : n ≠ 0) :
    (register_node (register_node reg n cA locA fA) n cB locB fB).clients.lookup n =
        some cB ∧
      (session_cleanup
          (register_node (register_node reg n cA locA fA) n cB locB fB)
          (some n)).clients.lookup n = none := by
  constructor
  · exact dict_insert_lookup n cB _
  · simp only [session_cleanup]
    rw [if_pos h]
    exact dict_pop_lookup n _

/-- Witness for the amended claim C9: concrete run at node id `3`,
connections `1` and `2`. -/
theorem stale_cleanup_deregisters_replacement_witness :
    (register_node (register_node emptyRegistry 3 1 (0, 0) 915) 3 2 (5, 5)
        915).clients.lookup 3 = some 2 ∧
      (session_cleanup
          (register_node (register_node emptyRegistry 3 1 (0, 0) 915) 3 2 (5, 5)
            915) (some 3)).clients.lookup 3 = none :=
  stale_cleanup_deregisters_replacement emptyRegistry 3 1 2 (0, 0) (5, 5) 915 915
    (by norm_num)

/-- Claim C10: a line that decodes to a JSON object without a `"type"` key
aborts the session — the remaining lines are not processed, the loop is
flagged as ended by an exception, and the disconnect cleanup still runs —
while a line that fails JSON decoding is silently skipped and the session
continues with the remaining lines. -/
theorem missing_type_fatal_bad_json_skipped (reg : Registry) (conn : ℕ)
    (node_id : Option ℕ) (m : Msg) (rest : List (Option Msg))
    (h : m.type = none) :
    run_session reg conn node_id (some m :: rest) =
        (session_cleanup reg node_id, true, rest.length) ∧
      run_session reg conn node_id (none :: rest) =
        run_session reg conn node_id rest := by
  constructor
  · unfold run_session handle_msg
    rw [h]
  · rfl

/-- Witness for claim C10: the concrete object `{}` (no keys at all) kills
the session at once, leaving the one remaining line unprocessed. -/
theorem missing_type_fatal_witness :
    run_session emptyRegistry 7 none
        [some (Msg.mk none none none none), some (Msg.mk (some "tx") none none none)] =
      (session_cleanup emptyRegistry none, true, 1) :=
  (missing_type_fatal_bad_json_skipped emptyRegistry 7 none
      (Msg.mk none none none none) [some (Msg.mk (some "tx") none none none)]
      rfl).1

end LoRaSim
